import Mathlib

/-!
Verification of `extractHTML.py`: a shallow embedding of the page fetcher,
the stylesheet mirror and the CLI driver, together with theorems settling
the specification's claims.

Network and filesystem effects are modelled by an explicit `World` oracle;
each operation returns, besides its result, the trace of requests issued,
directories created and files written, so that side-effect claims are
statable.  The Python standard-library functions the source calls
(`urllib.parse.urlparse`, `urljoin`, `os.path.basename`, `os.path.join`,
`str.strip`, `re.sub` on single-character classes) are embedded following
the CPython implementations.
-/

namespace ExtractHTML

/-! ### String helpers (Python `str.strip`, `re.sub` on char classes) -/

/-- `l` with leading and trailing characters from `cs` removed
(Python `str.strip(chars)` on the character list). -/
def stripL (cs : List Char) (l : List Char) : List Char :=
  (((l.dropWhile (fun c => decide (c ∈ cs))).reverse.dropWhile
      (fun c => decide (c ∈ cs))).reverse)

/-- Python `s.strip(chars)`. -/
def pyStrip (cs : List Char) (s : String) : String :=
  String.mk (stripL cs s.data)

/-- Python `s.strip()` (whitespace characters). -/
def pyStripWs (s : String) : String :=
  pyStrip [' ', '\t', '\n', '\r', Char.ofNat 11, Char.ofNat 12] s

/-- Python `re.sub('[...]', '_', s)` for a single-character class:
every character in `bad` is replaced by an underscore. -/
def subChars (bad : List Char) (s : String) : String :=
  String.mk (s.data.map (fun c => if c ∈ bad then '_' else c))

/-- Python `s.startswith(p)`. -/
def pyStartsWith (s p : String) : Bool :=
  p.data.isPrefixOf s.data

/-- Python `s.endswith(p)`. -/
def pyEndsWith (s p : String) : Bool :=
  p.data.reverse.isPrefixOf s.data.reverse

/-- Python `s.lower()`. -/
def pyLower (s : String) : String :=
  String.mk (s.data.map Char.toLower)

/-- Python `s.split(sep)` for a single-character separator, on the
character list: splitting the empty text gives one empty piece. -/
def splitOnChar (sep : Char) : List Char → List (List Char)
  | [] => [[]]
  | c :: rest =>
    let r := splitOnChar sep rest
    if c = sep then [] :: r
    else
      match r with
      | [] => [[c]]
      | x :: xs => (c :: x) :: xs

/-- Python `s.split(sep)` for a single-character separator. -/
def pySplit (s : String) (sep : Char) : List String :=
  (splitOnChar sep s.data).map String.mk

/-- Python `sep.join(pieces)`. -/
def joinWith (sep : String) : List String → String
  | [] => ""
  | [x] => x
  | x :: y :: ys => x ++ sep ++ joinWith sep (y :: ys)

/-- Python `os.path.basename` (posix): the part of the path after the
last slash. -/
def osBasename (p : String) : String :=
  String.mk ((p.data.reverse.takeWhile (fun c => c != '/')).reverse)

/-- Python `os.path.join` for two components (posix rules). -/
def osPathJoin (a b : String) : String :=
  if pyStartsWith b "/" then b
  else if a = "" ∨ pyEndsWith a "/" then a ++ b
  else a ++ "/" ++ b

/-! ### `urllib.parse`: urlparse, urlunparse, urljoin -/

/-- Characters allowed in a URL scheme after the first letter. -/
def schemeChar (c : Char) : Bool :=
  c.isAlphanum || c == '+' || c == '-' || c == '.'

/-- Split a leading `scheme:` off a URL, as CPython `urlsplit` does:
the part before the first colon counts as a scheme only when it is
nonempty, starts with a letter and consists of scheme characters.
Returns `(scheme lowercased, remainder)`; no scheme gives `("", url)`. -/
def splitScheme (l : List Char) : List Char × List Char :=
  let pre := l.takeWhile (fun c => c != ':')
  match l.dropWhile (fun c => c != ':') with
  | [] => ([], l)
  | _ :: after =>
    if h : pre = [] then ([], l)
    else if (pre.head (by exact h)).isAlpha ∧ pre.all schemeChar then
      (pre.map Char.toLower, after)
    else ([], l)

/-- Split a leading `//netloc` off the remainder of a URL: the netloc
runs up to the next `/`, `?` or `#`. -/
def splitNetloc : List Char → List Char × List Char
  | '/' :: '/' :: rest =>
    (rest.takeWhile (fun c => !(c == '/' || c == '?' || c == '#')),
     rest.dropWhile (fun c => !(c == '/' || c == '?' || c == '#')))
  | l => ([], l)

/-- Split a list at the first occurrence of `sep`:
`(before, after)`, with `after = []` when `sep` does not occur. -/
def splitFirst (sep : Char) (l : List Char) : List Char × List Char :=
  match l.dropWhile (fun c => c != sep) with
  | [] => (l, [])
  | _ :: after => (l.takeWhile (fun c => c != sep), after)

/-- CPython `_splitparams`: split `;params` off the last path segment. -/
def splitParams (path : List Char) : List Char × List Char :=
  if ';' ∈ path then
    if '/' ∈ path then
      let lastSeg := (path.reverse.takeWhile (fun c => c != '/')).reverse
      if ';' ∈ lastSeg then
        let kept := path.take (path.length - lastSeg.length)
        let (before, after) := splitFirst ';' lastSeg
        (kept ++ before, after)
      else (path, [])
    else splitFirst ';' path
  else (path, [])

/-- Result of `urllib.parse.urlparse`. -/
structure UrlParts where
  scheme : String
  netloc : String
  path : String
  params : String
  query : String
  fragment : String
deriving Repr, DecidableEq

/-- Schemes for which relative joining is defined (CPython `uses_relative`). -/
def usesRelative : List String :=
  ["", "ftp", "http", "gopher", "nntp", "imap", "wais", "file", "https",
   "shttp", "mms", "prospero", "rtsp", "rtspu", "sftp", "svn", "svn+ssh",
   "ws", "wss"]

/-- Schemes that use a network location (CPython `uses_netloc`). -/
def usesNetloc : List String :=
  ["", "ftp", "http", "gopher", "nntp", "telnet", "imap", "wais", "file",
   "mms", "https", "shttp", "snews", "prospero", "rtsp", "rtspu", "rsync",
   "svn", "svn+ssh", "sftp", "nfs", "git", "git+ssh", "ws", "wss"]

/-- Schemes that use `;params` (CPython `uses_params`). -/
def usesParams : List String :=
  ["", "ftp", "hdl", "prospero", "http", "imap", "https", "shttp", "rtsp",
   "rtspu", "sip", "sips", "mms", "sftp", "tel"]

/-- CPython `urlparse(url, scheme=default)`: split a URL into
scheme, netloc, path, params, query and fragment. -/
def urlparseWith (url : String) (dflt : String) : UrlParts :=
  let (sch, rest) := splitScheme url.data
  let scheme := if sch = [] then dflt.data else sch
  let (netloc, rest) := splitNetloc rest
  let (rest, fragment) := splitFirst '#' rest
  let (path0, query) := splitFirst '?' rest
  let (path, params) :=
    if String.mk scheme ∈ usesParams then splitParams path0 else (path0, [])
  ⟨String.mk scheme, String.mk netloc, String.mk path, String.mk params,
   String.mk query, String.mk fragment⟩

/-- CPython `urlparse(url)`. -/
def urlparse (url : String) : UrlParts :=
  urlparseWith url ""

/-- CPython `urlunparse` (via `urlunsplit`). -/
def urlunparse (p : UrlParts) : String :=
  let url := if p.params ≠ "" then p.path ++ ";" ++ p.params else p.path
  let url :=
    if p.netloc ≠ "" ∨ pyStartsWith url "//" then
      "//" ++ p.netloc ++
        (if url ≠ "" ∧ ¬ pyStartsWith url "/" then "/" ++ url else url)
    else url
  let url := if p.scheme ≠ "" then p.scheme ++ ":" ++ url else url
  let url := if p.query ≠ "" then url ++ "?" ++ p.query else url
  if p.fragment ≠ "" then url ++ "#" ++ p.fragment else url

/-- CPython `urljoin`: in the merged segment list, drop empty segments
except in the first and last position (`segments[1:-1] = filter(None, ...)`). -/
def midFilter : List String → List String
  | [] => []
  | [x] => [x]
  | x :: y :: ys =>
    x :: (((y :: ys).dropLast.filter (fun s => s ≠ "")) ++
      [(y :: ys).getLast (by simp)])

/-- CPython `urljoin`: resolve `.` and `..` segments left to right,
popping on `..` (ignoring pops from an empty stack). -/
def resolveLoop (resolved : List String) : List String → List String
  | [] => resolved
  | seg :: rest =>
    if seg = ".." then resolveLoop resolved.dropLast rest
    else if seg = "." then resolveLoop resolved rest
    else resolveLoop (resolved ++ [seg]) rest

/-- CPython `urljoin(base, url)`: standard relative-URL resolution —
absolute references pass through, scheme-relative and path-relative
references are joined with the base. -/
def urljoin (base url : String) : String :=
  if base = "" then url
  else if url = "" then base
  else
    let b := urlparseWith base ""
    let u := urlparseWith url b.scheme
    if u.scheme ≠ b.scheme ∨ u.scheme ∉ usesRelative then url
    else if u.scheme ∈ usesNetloc ∧ u.netloc ≠ "" then
      urlunparse ⟨u.scheme, u.netloc, u.path, u.params, u.query, u.fragment⟩
    else
      let netloc := if u.scheme ∈ usesNetloc then b.netloc else u.netloc
      if u.path = "" ∧ u.params = "" then
        let query := if u.query = "" then b.query else u.query
        urlunparse ⟨u.scheme, netloc, b.path, b.params, query, u.fragment⟩
      else
        let baseParts0 := pySplit b.path '/'
        let baseParts :=
          if baseParts0.getLast? ≠ some "" then baseParts0.dropLast
          else baseParts0
        let segments :=
          if pyStartsWith u.path "/" then pySplit u.path '/'
          else midFilter (baseParts ++ pySplit u.path '/')
        let resolved := resolveLoop [] segments
        let resolved :=
          if segments.getLast? = some "." ∨ segments.getLast? = some ".." then
            resolved ++ [""]
          else resolved
        let joined := joinWith "/" resolved
        let path := if joined = "" then "/" else joined
        urlunparse ⟨u.scheme, netloc, path, u.params, u.query, u.fragment⟩

/-! ### `sanitize_url_for_directory` -/

/-- `sanitize_url_for_directory` (extractHTML.py, lines 8–30): convert a URL
into a valid directory name.  Combines netloc and path, strips leading and
trailing slashes, replaces the characters `< > : " | ? *` and then the path
separators `/ \` by underscores, and falls back to `"extracted_page"` when
the result is empty. -/
def sanitize_url_for_directory (url : String) : String :=
  let parsed := urlparse url
  let dirName0 := if parsed.netloc ≠ "" then parsed.netloc ++ parsed.path
                  else parsed.path
  let dirName1 := pyStrip ['/'] dirName0
  let dirName2 := subChars ['<', '>', ':', '"', '|', '?', '*'] dirName1
  let dirName3 := subChars ['/', '\\'] dirName2
  if dirName3 = "" then "extracted_page" else dirName3

/-! ### The page fetcher -/

/-- Scheme normalization (extractHTML.py, lines 44–46): prepend `https://`
when the input starts with neither `http://` nor `https://`. -/
def normalize_scheme (url : String) : String :=
  if pyStartsWith url "http://" ∨ pyStartsWith url "https://" then url
  else "https://" ++ url

/-- Outcome of one HTTP GET, as `requests` exposes it: either a request
exception, or a response carrying the status code, the body text and the
final URL after redirects (`response.url`). -/
inductive NetResult
  | err : NetResult
  | ok (status : Nat) (body : String) (finalUrl : String) : NetResult
deriving Repr, DecidableEq

/-- A stylesheet-relation `<link>` element, abstracted to its `href`
attribute (`none` when the attribute is absent). -/
structure LinkElem where
  href : Option String
deriving Repr, DecidableEq

/-- The effect oracle: network responses, directory existence, whether
directory creation and file writes succeed, and the markup parser
(`BeautifulSoup` + `find_all`, abstracted: `some links` is the list of
stylesheet-relation link elements found in document order, `none` a
parsing exception). -/
structure World where
  net : String → NetResult
  dirExists : String → Bool
  mkdirOk : String → Bool
  writeOk : String → Bool
  parseHtml : String → Option (List LinkElem)

/-- `requests.Response.raise_for_status` raises exactly for status codes
in `[400, 600)`. -/
def raisesForStatus (status : Nat) : Prop :=
  400 ≤ status ∧ status < 600

instance (s : Nat) : Decidable (raisesForStatus s) := by
  unfold raisesForStatus; infer_instance

/-- Result and effect trace of `extract_html_from_url`. -/
structure FetchOut where
  result : Option (String × String × String × String)
  requests : List String
  dirsCreated : List String
  filesWritten : List (String × String)
deriving Repr, DecidableEq

/-- `extract_html_from_url` (extractHTML.py, lines 33–78): normalize the
scheme, GET the page, create the directory derived from the URL when
absent, write the body to `<dir>/index.html`, and return
`(path, html, base url, dir)`; every failure yields the sentinel
`(None, None, None, None)`, modelled as `none`. -/
def extract_html_from_url (url0 : String) (w : World) : FetchOut :=
  let url := normalize_scheme url0
  match w.net url with
  | NetResult.err => ⟨none, [url], [], []⟩
  | NetResult.ok status body _finalUrl =>
    if raisesForStatus status then ⟨none, [url], [], []⟩
    else
      let dirName := sanitize_url_for_directory url
      let proceed : List String → FetchOut := fun created =>
        let htmlPath := osPathJoin dirName "index.html"
        if w.writeOk htmlPath then
          ⟨some (htmlPath, body, url, dirName), [url], created,
           [(htmlPath, body)]⟩
        else ⟨none, [url], created, []⟩
      if w.dirExists dirName then proceed []
      else if w.mkdirOk dirName then proceed [dirName]
      else ⟨none, [url], [], []⟩

/-! ### The stylesheet mirror -/

/-- Result and effect trace of `extract_linked_styles`: the success flag,
the CSS GET requests issued in order, the CSS files written (path, body),
the recorded downloaded filenames, and the link list as re-serialized into
`index.html` (`none` when `index.html` was not rewritten). -/
structure MirrorOut where
  ok : Bool
  requests : List String
  writes : List (String × String)
  downloaded : List String
  finalLinks : Option (List LinkElem)
deriving Repr, DecidableEq

/-- The local filename computed at lines 127–133 for the stylesheet at
1-based position `idx` with reference `h`: the basename of the resolved
URL's path (`os.path.basename(urlparse(css_url).path)`) when nonempty
and ending in `.css`, else the synthesized `style_<idx>.css`. -/
def cssNameOf (base h : String) (idx : Nat) : String :=
  let b := osBasename (urlparse (urljoin base h)).path
  if b = "" ∨ ¬ pyEndsWith b ".css" then "style_" ++ toString idx ++ ".css"
  else b

/-- The per-link loop of `extract_linked_styles` (extractHTML.py,
lines 112–151), with `idx` the 1-based enumeration counter: skip links
whose `href` is absent or empty, resolve the reference with `urljoin`,
GET it (a failed request skips the link), name the file by `cssNameOf`
(the inline computation of lines 127–133 applied to the resolved URL),
then attempt the file write.  An exception during the write (lines
137–138) is caught by the same per-link handler (lines 149–151) and
skips the rest of the iteration: the `href` is not rewritten and nothing
is recorded as downloaded.  On a successful write the link's `href` is
rewritten to the local name and the name recorded.  Returns
(requests, writes, downloaded, rewritten links). -/
def mirrorLoop (base dirName : String) (net : String → Option String)
    (writeOk : String → Bool) :
    Nat → List LinkElem →
    List String × List (String × String) × List String × List LinkElem
  | _, [] => ([], [], [], [])
  | idx, l :: rest =>
    let r := mirrorLoop base dirName net writeOk (idx + 1) rest
    match l.href with
    | none => (r.1, r.2.1, r.2.2.1, l :: r.2.2.2)
    | some h =>
      if h = "" then (r.1, r.2.1, r.2.2.1, l :: r.2.2.2)
      else
        let cssUrl := urljoin base h
        match net cssUrl with
        | none => (cssUrl :: r.1, r.2.1, r.2.2.1, l :: r.2.2.2)
        | some body =>
          let fname := cssNameOf base h idx
          let cssPath := osPathJoin dirName fname
          if writeOk cssPath then
            (cssUrl :: r.1, (cssPath, body) :: r.2.1,
             fname :: r.2.2.1, LinkElem.mk (some fname) :: r.2.2.2)
          else (cssUrl :: r.1, r.2.1, r.2.2.1, l :: r.2.2.2)

/-- `extract_linked_styles` (extractHTML.py, lines 81–163).  The parse
step is the oracle's `Option`: `none` models an exception raised while
parsing, which the outer handler converts to `False`.  An empty link
collection returns `True` immediately, before any rewrite of
`index.html`.  Otherwise the loop runs and the mutated document is
re-serialized over `<dir>/index.html` (lines 154–156); an exception in
that final write escapes to the outer handler (lines 161–163), so the
function returns `False` and the rewrite does not take effect, while the
per-link effects already performed remain. -/
def extract_linked_styles (parsed : Option (List LinkElem))
    (baseUrl dirName : String) (net : String → Option String)
    (writeOk : String → Bool) : MirrorOut :=
  match parsed with
  | none => ⟨false, [], [], [], none⟩
  | some [] => ⟨true, [], [], [], none⟩
  | some links =>
    let r := mirrorLoop baseUrl dirName net writeOk 1 links
    if writeOk (osPathJoin dirName "index.html") then
      ⟨true, r.1, r.2.1, r.2.2.1, some r.2.2.2⟩
    else ⟨false, r.1, r.2.1, r.2.2.1, none⟩

/-- The mirror's GET (`requests.get` + `raise_for_status`) expressed over
the world oracle: `none` on a request exception or an error status. -/
def cssFetch (w : World) (u : String) : Option String :=
  match w.net u with
  | NetResult.err => none
  | NetResult.ok status body _ =>
    if raisesForStatus status then none else some body

/-! ### Per-link summary functions (read off the loop body) -/

/-- The CSS request a link gives rise to, if any. -/
def linkRequest (base : String) (l : LinkElem) : Option String :=
  match l.href with
  | none => none
  | some h => if h = "" then none else some (urljoin base h)

/-- The file write a link gives rise to, if any: a successful download
whose write also succeeds. -/
def linkWrite (base dirName : String) (net : String → Option String)
    (writeOk : String → Bool) (idx : Nat) (l : LinkElem) :
    Option (String × String) :=
  match l.href with
  | none => none
  | some h =>
    if h = "" then none
    else
      match net (urljoin base h) with
      | none => none
      | some body =>
        if writeOk (osPathJoin dirName (cssNameOf base h idx)) then
          some (osPathJoin dirName (cssNameOf base h idx), body)
        else none

/-- The downloaded-filename record a link gives rise to, if any: recorded
only after a successful download and write. -/
def linkDownload (base dirName : String) (net : String → Option String)
    (writeOk : String → Bool) (idx : Nat) (l : LinkElem) : Option String :=
  match l.href with
  | none => none
  | some h =>
    if h = "" then none
    else
      match net (urljoin base h) with
      | none => none
      | some _ =>
        if writeOk (osPathJoin dirName (cssNameOf base h idx)) then
          some (cssNameOf base h idx)
        else none

/-- The link element as it appears in the rewritten document: the local
filename when the download and the file write both succeeded, the
original element otherwise. -/
def linkAfter (base dirName : String) (net : String → Option String)
    (writeOk : String → Bool) (idx : Nat) (l : LinkElem) : LinkElem :=
  match l.href with
  | none => l
  | some h =>
    if h = "" then l
    else
      match net (urljoin base h) with
      | none => l
      | some _ =>
        if writeOk (osPathJoin dirName (cssNameOf base h idx)) then
          LinkElem.mk (some (cssNameOf base h idx))
        else l

/-- `List.filterMap` with a 1-based position counter threaded through. -/
def filterMapFrom (f : Nat → LinkElem → Option α) :
    Nat → List LinkElem → List α
  | _, [] => []
  | i, x :: xs =>
    match f i x with
    | none => filterMapFrom f (i + 1) xs
    | some y => y :: filterMapFrom f (i + 1) xs

/-- `List.map` with a 1-based position counter threaded through. -/
def mapFrom (f : Nat → LinkElem → β) : Nat → List LinkElem → List β
  | _, [] => []
  | i, x :: xs => f i x :: mapFrom f (i + 1) xs

/-! ### The CLI driver -/

/-- Observable outcome of one run of `main`. -/
structure DriverOut where
  inputError : Bool
  fetcherInvoked : Bool
  netRequests : List String
  mirrorRan : Bool
deriving Repr, DecidableEq

/-- `main` (extractHTML.py, lines 166–195): strip the first input; an
empty result aborts with an input error before the fetcher runs.
Otherwise fetch; on success, a stripped, lowercased second input of `y`
or `yes` runs the mirror on the fetched HTML, base URL and directory. -/
def main_run (input1 input2 : String) (w : World) : DriverOut :=
  let url := pyStripWs input1
  if url = "" then ⟨true, false, [], false⟩
  else
    let fo := extract_html_from_url url w
    match fo.result with
    | none => ⟨false, true, fo.requests, false⟩
    | some (_path, html, baseUrl, dirName) =>
      let ans := pyLower (pyStripWs input2)
      if ans = "y" ∨ ans = "yes" then
        let mo := extract_linked_styles (w.parseHtml html) baseUrl dirName
          (cssFetch w) w.writeOk
        ⟨false, true, fo.requests ++ mo.requests, true⟩
      else ⟨false, true, fo.requests, false⟩

/-! ### Lemmas about the mirror loop -/

lemma data_mk (l : List Char) : (String.mk l).data = l := rfl

/-- The mirror loop is, component by component, the indexed filterMap /
map of the per-link summary functions over the link list. -/
lemma mirrorLoop_spec (base dirName : String) (net : String → Option String)
    (writeOk : String → Bool) :
    ∀ (idx : Nat) (links : List LinkElem),
    mirrorLoop base dirName net writeOk idx links =
      (filterMapFrom (fun _ l => linkRequest base l) idx links,
       filterMapFrom (linkWrite base dirName net writeOk) idx links,
       filterMapFrom (linkDownload base dirName net writeOk) idx links,
       mapFrom (linkAfter base dirName net writeOk) idx links) := by
  intro idx links
  induction links generalizing idx with
  | nil => rfl
  | cons l rest ih =>
    cases hl : l.href with
    | none =>
      simp [mirrorLoop, filterMapFrom, mapFrom, linkRequest, linkWrite,
        linkDownload, linkAfter, hl, ih]
    | some h =>
      by_cases hh : h = ""
      · simp [mirrorLoop, filterMapFrom, mapFrom, linkRequest, linkWrite,
          linkDownload, linkAfter, hl, hh, ih]
      · cases hn : net (urljoin base h) with
        | none =>
          simp [mirrorLoop, filterMapFrom, mapFrom, linkRequest, linkWrite,
            linkDownload, linkAfter, hl, hh, hn, ih]
        | some body =>
          by_cases hwp :
              writeOk (osPathJoin dirName (cssNameOf base h idx)) = true
          · simp [mirrorLoop, filterMapFrom, mapFrom, linkRequest,
              linkWrite, linkDownload, linkAfter, hl, hh, hn, hwp, ih]
          · simp [mirrorLoop, filterMapFrom, mapFrom, linkRequest,
              linkWrite, linkDownload, linkAfter, hl, hh, hn, hwp, ih]

/-- On a nonempty link collection whose final `index.html` write
succeeds, the mirror succeeds, issues the per-link requests, performs
the per-link writes and rewrites `index.html` with the per-link
outcomes. -/
lemma extract_linked_styles_eq (links : List LinkElem)
    (baseUrl dirName : String) (net : String → Option String)
    (writeOk : String → Bool) (hne : links ≠ [])
    (hw : writeOk (osPathJoin dirName "index.html") = true) :
    extract_linked_styles (some links) baseUrl dirName net writeOk =
      ⟨true, filterMapFrom (fun _ l => linkRequest baseUrl l) 1 links,
       filterMapFrom (linkWrite baseUrl dirName net writeOk) 1 links,
       filterMapFrom (linkDownload baseUrl dirName net writeOk) 1 links,
       some (mapFrom (linkAfter baseUrl dirName net writeOk) 1 links)⟩ := by
  cases links with
  | nil => exact absurd rfl hne
  | cons l rest =>
    simp [extract_linked_styles, mirrorLoop_spec, hw]

/-- On a nonempty link collection whose final `index.html` write raises,
the mirror returns `false` and `index.html` is not rewritten; the
per-link effects already performed remain. -/
lemma extract_linked_styles_eq_badwrite (links : List LinkElem)
    (baseUrl dirName : String) (net : String → Option String)
    (writeOk : String → Bool) (hne : links ≠ [])
    (hw : writeOk (osPathJoin dirName "index.html") = false) :
    extract_linked_styles (some links) baseUrl dirName net writeOk =
      ⟨false, filterMapFrom (fun _ l => linkRequest baseUrl l) 1 links,
       filterMapFrom (linkWrite baseUrl dirName net writeOk) 1 links,
       filterMapFrom (linkDownload baseUrl dirName net writeOk) 1 links,
       none⟩ := by
  cases links with
  | nil => exact absurd rfl hne
  | cons l rest =>
    simp [extract_linked_styles, mirrorLoop_spec, hw]

lemma filterMapFrom_append (f : Nat → LinkElem → Option α) :
    ∀ (xs ys : List LinkElem) (i : Nat),
    filterMapFrom f i (xs ++ ys) =
      filterMapFrom f i xs ++ filterMapFrom f (i + xs.length) ys := by
  intro xs
  induction xs with
  | nil => intro ys i; simp [filterMapFrom]
  | cons x xs ih =>
    intro ys i
    have harith : i + (xs.length + 1) = (i + 1) + xs.length := by omega
    cases hf : f i x with
    | none => simp [filterMapFrom, hf, ih, harith]
    | some y => simp [filterMapFrom, hf, ih, harith]

lemma mapFrom_append (f : Nat → LinkElem → β) :
    ∀ (xs ys : List LinkElem) (i : Nat),
    mapFrom f i (xs ++ ys) = mapFrom f i xs ++ mapFrom f (i + xs.length) ys := by
  intro xs
  induction xs with
  | nil => intro ys i; simp [mapFrom]
  | cons x xs ih =>
    intro ys i
    have harith : i + (xs.length + 1) = (i + 1) + xs.length := by omega
    simp [mapFrom, ih, harith]

/-- The requests issued by the fetcher always consist of exactly the GET
of the scheme-normalized input URL. -/
lemma fetch_requests (url0 : String) (w : World) :
    (extract_html_from_url url0 w).requests = [normalize_scheme url0] := by
  unfold extract_html_from_url
  cases hn : w.net (normalize_scheme url0) with
  | err => simp [hn]
  | ok status body finalUrl =>
    simp only [hn]
    split
    · rfl
    · split
      · split <;> rfl
      · split
        · split <;> rfl
        · rfl

/-! ### Claim theorems -/

/-- C6: for every input URL not beginning with `http://` or `https://`,
the effective fetch URL (the one GET request the fetcher issues) is the
input prefixed with `https://`; for an input already beginning with
either scheme, it is the input unchanged. -/
theorem scheme_normalization (url : String) (w : World) :
    (extract_html_from_url url w).requests =
      [if pyStartsWith url "http://" ∨ pyStartsWith url "https://" then url
       else "https://" ++ url] := by
  rw [fetch_requests]
  unfold normalize_scheme
  split <;> rfl

/-- C5: on an HTML document with zero stylesheet-relation link elements,
the stylesheet mirror returns success, issues no request, writes no file,
records no download, and does not rewrite `index.html` (so the document's
stylesheet references are left unchanged). -/
theorem mirror_zero_links (baseUrl dirName : String)
    (net : String → Option String) (writeOk : String → Bool) :
    extract_linked_styles (some []) baseUrl dirName net writeOk =
      ⟨true, [], [], [], none⟩ := rfl

/-- C8: when the first prompt's input is empty after trimming whitespace,
the driver reports an input error and stops: the fetcher is never invoked
and no network request is made. -/
theorem empty_input_aborts (input1 input2 : String) (w : World)
    (h : pyStripWs input1 = "") :
    main_run input1 input2 w =
      { inputError := true, fetcherInvoked := false, netRequests := [],
        mirrorRan := false } := by
  simp [main_run, h]

/-- A world in which every effect fails: the network always raises and
the filesystem refuses everything. -/
def failWorld : World where
  net := fun _ => NetResult.err
  dirExists := fun _ => false
  mkdirOk := fun _ => false
  writeOk := fun _ => false
  parseHtml := fun _ => none

/-- Witness for C8 at a concrete whitespace-only input. -/
theorem empty_input_aborts_witness :
    pyStripWs "  \t " = "" ∧
    main_run "  \t " "y" failWorld =
      { inputError := true, fetcherInvoked := false, netRequests := [],
        mirrorRan := false } :=
  ⟨by decide, empty_input_aborts "  \t " "y" failWorld (by decide)⟩

/-- After the two substitution passes, no character of the combined bad
set survives. -/
lemma subChars_subChars_safe (s : String) (c : Char)
    (hc : c ∈ (subChars ['/', '\\']
      (subChars ['<', '>', ':', '"', '|', '?', '*'] s)).data) :
    c ∉ ['<', '>', ':', '"', '|', '?', '*', '/', '\\'] := by
  simp only [subChars, data_mk, List.map_map, List.mem_map,
    Function.comp] at hc
  obtain ⟨x, -, rfl⟩ := hc
  by_cases h1 : x ∈ ['<', '>', ':', '"', '|', '?', '*']
  · simp [h1]
  · by_cases h2 : x ∈ ['/', '\\']
    · simp [h1, h2]
    · simp only [if_neg h1, if_neg h2]
      simp only [List.mem_cons, List.not_mem_nil, or_false] at h1 h2 ⊢
      tauto

/-- C2: directory-name derivation is a deterministic pure function of the
URL; its output never contains `< > : " | ? *` nor a path separator; and
when the combined host+path is empty after trimming slashes, the result is
the fixed fallback `"extracted_page"`. -/
theorem sanitize_pure_safe_fallback (url : String) :
    sanitize_url_for_directory url = sanitize_url_for_directory url ∧
    (∀ c ∈ (sanitize_url_for_directory url).data,
      c ∉ ['<', '>', ':', '"', '|', '?', '*', '/', '\\']) ∧
    (pyStrip ['/'] (if (urlparse url).netloc ≠ "" then
        (urlparse url).netloc ++ (urlparse url).path
      else (urlparse url).path) = "" →
      sanitize_url_for_directory url = "extracted_page") := by
  refine ⟨rfl, ?_, ?_⟩
  · intro c hc
    unfold sanitize_url_for_directory at hc
    set s := pyStrip ['/'] (if (urlparse url).netloc ≠ "" then
        (urlparse url).netloc ++ (urlparse url).path
      else (urlparse url).path) with hs
    by_cases hempty :
        subChars ['/', '\\'] (subChars ['<', '>', ':', '"', '|', '?', '*'] s) = ""
    · rw [if_pos hempty] at hc
      exact (by decide : ∀ x ∈ ("extracted_page" : String).data,
        x ∉ ['<', '>', ':', '"', '|', '?', '*', '/', '\\']) c hc
    · rw [if_neg hempty] at hc
      exact subChars_subChars_safe s c hc
  · intro hempty
    unfold sanitize_url_for_directory
    dsimp only
    rw [hempty]
    decide

/-- Witness for C2: a URL with unsafe characters yields a safe name, and
a URL whose host+path trims to nothing yields the fallback. -/
theorem sanitize_pure_safe_fallback_witness :
    (∀ c ∈ (sanitize_url_for_directory "https://ex.com/a/b?q=1").data,
      c ∉ ['<', '>', ':', '"', '|', '?', '*', '/', '\\']) ∧
    sanitize_url_for_directory "https:///" = "extracted_page" :=
  ⟨(sanitize_pure_safe_fallback "https://ex.com/a/b?q=1").2.1,
   (sanitize_pure_safe_fallback "https:///").2.2 (by decide)⟩

/-- The failure conditions of the fetcher, read off its code paths: a
request exception, an error status (`raise_for_status` raises for
400–599), a failed directory creation, or a failed file write. -/
def fetchFailure (url0 : String) (w : World) : Prop :=
  match w.net (normalize_scheme url0) with
  | NetResult.err => True
  | NetResult.ok status _ _ =>
    raisesForStatus status ∨
    (¬ raisesForStatus status ∧
      ((w.dirExists (sanitize_url_for_directory (normalize_scheme url0))
          = false ∧
        w.mkdirOk (sanitize_url_for_directory (normalize_scheme url0))
          = false) ∨
       ((w.dirExists (sanitize_url_for_directory (normalize_scheme url0))
           = true ∨
         w.mkdirOk (sanitize_url_for_directory (normalize_scheme url0))
           = true) ∧
        w.writeOk (osPathJoin
          (sanitize_url_for_directory (normalize_scheme url0))
          "index.html") = false)))

/-- C7: every failure of the fetcher — network-layer error, error HTTP
status, or an I/O failure creating the directory or writing the file —
yields the uniform no-result signal (the sentinel in which all four
components are absent, modelled as `none`).  The embedding is a total
function, reflecting that the source catches every exception at the
operation boundary. -/
theorem fetch_failure_uniform (url0 : String) (w : World)
    (h : fetchFailure url0 w) :
    (extract_html_from_url url0 w).result = none := by
  unfold fetchFailure at h
  unfold extract_html_from_url
  cases hn : w.net (normalize_scheme url0) with
  | err => simp [hn]
  | ok status body finalUrl =>
    rw [hn] at h
    simp only [hn]
    rcases h with hs | ⟨hs, hio⟩
    · simp [hs]
    · rw [if_neg hs]
      rcases hio with ⟨hd, hm⟩ | ⟨hdm, hw⟩
      · simp [hd, hm]
      · rcases hdm with hd | hm
        · simp [hd, hw]
        · by_cases hd : w.dirExists
              (sanitize_url_for_directory (normalize_scheme url0)) <;>
            simp [hd, hm, hw]

/-- Witness for C7: a network error at a concrete URL yields `none`. -/
theorem fetch_failure_uniform_witness :
    fetchFailure "a.com" failWorld ∧
    (extract_html_from_url "a.com" failWorld).result = none :=
  ⟨trivial, fetch_failure_uniform "a.com" failWorld trivial⟩

/-- C9: when the fetch fails with a network-layer error or an error HTTP
status, the fetcher performs no filesystem side effect: no directory is
created and no file is written (the status check precedes both). -/
theorem fetch_error_no_fs_effect (url0 : String) (w : World)
    (h : w.net (normalize_scheme url0) = NetResult.err ∨
      ∃ s b f, w.net (normalize_scheme url0) = NetResult.ok s b f ∧
        raisesForStatus s) :
    (extract_html_from_url url0 w).dirsCreated = [] ∧
    (extract_html_from_url url0 w).filesWritten = [] := by
  unfold extract_html_from_url
  rcases h with hn | ⟨s, b, f, hn, hs⟩
  · simp [hn]
  · simp [hn, hs]

/-- Witness for C9: a concrete 404 response creates no directory and
writes no file. -/
def notFoundWorld : World where
  net := fun _ => NetResult.ok 404 "not found" "https://a.com/"
  dirExists := fun _ => false
  mkdirOk := fun _ => true
  writeOk := fun _ => true
  parseHtml := fun _ => some []

theorem fetch_error_no_fs_effect_witness :
    (extract_html_from_url "a.com" notFoundWorld).dirsCreated = [] ∧
    (extract_html_from_url "a.com" notFoundWorld).filesWritten = [] :=
  fetch_error_no_fs_effect "a.com" notFoundWorld
    (Or.inr ⟨404, "not found", "https://a.com/", rfl, by decide⟩)

/-- A world in which fetching `https://a.com` succeeds but the server
redirects: the response body was actually served from `https://b.com/`
(the `response.url` of the final response). -/
def redirectWorld : World where
  net := fun u =>
    if u = "https://a.com" then
      NetResult.ok 200 "<html></html>" "https://b.com/"
    else NetResult.err
  dirExists := fun _ => true
  mkdirOk := fun _ => true
  writeOk := fun _ => true
  parseHtml := fun _ => some []

/-- C1, counterexample: the fetcher's returned base URL (third component,
later used by the mirror to resolve relative stylesheet references) is
`"https://a.com"`, the scheme-normalized *input* URL, while the final URL
from which the document was actually fetched (the redirect target
`response.url`) is `"https://b.com/"` — the two differ, so the base URL
is not the final URL of the fetch. -/
theorem base_url_not_final_counterexample :
    (extract_html_from_url "a.com" redirectWorld).result =
      some ("a.com/index.html", "<html></html>", "https://a.com", "a.com") ∧
    redirectWorld.net "https://a.com" =
      NetResult.ok 200 "<html></html>" "https://b.com/" ∧
    ("https://a.com" : String) ≠ "https://b.com/" :=
  ⟨by decide, by decide, by decide⟩

/-- C1, amended: the base URL returned by the fetcher (and passed to the
mirror for relative-reference resolution) is the scheme-normalized input
URL — the URL the GET request was issued to — not the redirect-final URL
of the response. -/
theorem base_url_is_normalized_input (url0 : String) (w : World)
    (p h b d : String)
    (hres : (extract_html_from_url url0 w).result = some (p, h, b, d)) :
    b = normalize_scheme url0 := by
  unfold extract_html_from_url at hres
  cases hn : w.net (normalize_scheme url0) with
  | err => simp [hn] at hres
  | ok status body finalUrl =>
    simp only [hn] at hres
    by_cases hs : raisesForStatus status
    · rw [if_pos hs] at hres; simp at hres
    · rw [if_neg hs] at hres
      split at hres
      · split at hres
        · simp at hres; exact hres.2.2.1.symm
        · simp at hres
      · split at hres
        · split at hres
          · simp at hres; exact hres.2.2.1.symm
          · simp at hres
        · simp at hres

/-- Witness for the amended C1 at a concrete fetch. -/
theorem base_url_is_normalized_input_witness :
    (extract_html_from_url "a.com" redirectWorld).result =
      some ("a.com/index.html", "<html></html>", "https://a.com", "a.com") ∧
    ("https://a.com" : String) = normalize_scheme "a.com" :=
  ⟨by decide,
   base_url_is_normalized_input "a.com" redirectWorld "a.com/index.html"
     "<html></html>" "https://a.com" "a.com" (by decide)⟩

/-- C3: in a run of the mirror where at least one stylesheet download
fails with a request error while at least one other succeeds (and the
final `index.html` write raises no exception), the pass is not aborted:
the mirror still returns `true`, every link is requested (the failing one
is merely skipped), and `index.html` is rewritten with each link
reflecting its own outcome — the local filename where the download and
save succeeded, the original reference where they failed.  The mirror
returns `false` exactly when an exception occurs while parsing (the
`none` parse outcome) or while serializing the document over
`index.html` (the final-write failure), never because of a per-link
download failure. -/
theorem mirror_partial_failure (links : List LinkElem)
    (parsed : Option (List LinkElem))
    (baseUrl dirName : String) (net : String → Option String)
    (writeOk writeOk' : String → Bool)
    (hfail : ∃ l ∈ links, ∃ h, l.href = some h ∧ h ≠ "" ∧
      net (urljoin baseUrl h) = none)
    (hsucc : ∃ l ∈ links, ∃ h, l.href = some h ∧ h ≠ "" ∧
      (net (urljoin baseUrl h)).isSome)
    (hw : writeOk (osPathJoin dirName "index.html") = true) :
    (extract_linked_styles (some links) baseUrl dirName net writeOk).ok
      = true ∧
    (extract_linked_styles (some links) baseUrl dirName net
        writeOk).requests =
      filterMapFrom (fun _ l => linkRequest baseUrl l) 1 links ∧
    (extract_linked_styles (some links) baseUrl dirName net
        writeOk).finalLinks =
      some (mapFrom (linkAfter baseUrl dirName net writeOk) 1 links) ∧
    ((extract_linked_styles parsed baseUrl dirName net writeOk').ok
        = false ↔
      parsed = none ∨ ∃ ls, parsed = some ls ∧ ls ≠ [] ∧
        writeOk' (osPathJoin dirName "index.html") = false) := by
  have hsucc' := hsucc
  have hne : links ≠ [] := by
    rcases hfail with ⟨l, hl, -⟩
    intro hnil
    rw [hnil] at hl
    exact absurd hl (List.not_mem_nil l)
  rw [extract_linked_styles_eq links baseUrl dirName net writeOk hne hw]
  refine ⟨rfl, rfl, rfl, ?_⟩
  cases parsed with
  | none => simp [extract_linked_styles]
  | some ls =>
    cases ls with
    | nil => simp [extract_linked_styles]
    | cons l rest =>
      by_cases hb : writeOk' (osPathJoin dirName "index.html") = true
      · rw [extract_linked_styles_eq (l :: rest) baseUrl dirName net
          writeOk' (by simp) hb]
        simp [hb]
      · rw [extract_linked_styles_eq_badwrite (l :: rest) baseUrl dirName
          net writeOk' (by simp) (by simpa using hb)]
        exact ⟨fun _ =>
          Or.inr ⟨l :: rest, rfl, by simp, by simpa using hb⟩,
          fun _ => rfl⟩

/-- Network oracle for the C3 witness: `a.css` resolves and downloads,
everything else fails. -/
def partialNet : String → Option String := fun u =>
  if u = "https://x.com/a.css" then some "body-a" else none

/-- A filesystem oracle on which every write succeeds. -/
def allWritesOk : String → Bool := fun _ => true

/-- Witness for C3: two links, the second download fails, the run still
succeeds and rewrites both links' outcomes. -/
theorem mirror_partial_failure_witness :
    (extract_linked_styles
      (some [LinkElem.mk (some "a.css"), LinkElem.mk (some "b.css")])
      "https://x.com/" "x.com" partialNet allWritesOk).ok = true ∧
    (extract_linked_styles
      (some [LinkElem.mk (some "a.css"), LinkElem.mk (some "b.css")])
      "https://x.com/" "x.com" partialNet allWritesOk).requests =
      filterMapFrom (fun _ l => linkRequest "https://x.com/" l) 1
        [LinkElem.mk (some "a.css"), LinkElem.mk (some "b.css")] ∧
    (extract_linked_styles
      (some [LinkElem.mk (some "a.css"), LinkElem.mk (some "b.css")])
      "https://x.com/" "x.com" partialNet allWritesOk).finalLinks =
      some (mapFrom (linkAfter "https://x.com/" "x.com" partialNet
        allWritesOk) 1
        [LinkElem.mk (some "a.css"), LinkElem.mk (some "b.css")]) ∧
    ((extract_linked_styles none "https://x.com/" "x.com" partialNet
        allWritesOk).ok = false ↔
      (none : Option (List LinkElem)) = none ∨
        ∃ ls, (none : Option (List LinkElem)) = some ls ∧ ls ≠ [] ∧
          allWritesOk (osPathJoin "x.com" "index.html") = false) :=
  mirror_partial_failure
    [LinkElem.mk (some "a.css"), LinkElem.mk (some "b.css")] none
    "https://x.com/" "x.com" partialNet allWritesOk allWritesOk
    ⟨LinkElem.mk (some "b.css"), by decide, "b.css", rfl, by decide,
      by decide⟩
    ⟨LinkElem.mk (some "a.css"), by decide, "a.css", rfl, by decide,
      by decide⟩
    (by decide)

/-- C4: a successfully downloaded stylesheet whose save succeeds is saved
under the final path segment of its resolved URL when that segment is
nonempty and ends in `.css`, and under the synthesized name
`style_<n>.css` otherwise, where `n` is the link's 1-based position among
all discovered stylesheet links — including links skipped for a missing
reference. -/
theorem css_filename_rule (pre post : List LinkElem)
    (h body baseUrl dirName : String) (net : String → Option String)
    (writeOk : String → Bool)
    (hh : h ≠ "") (hnet : net (urljoin baseUrl h) = some body)
    (hws : writeOk (osPathJoin dirName
      (cssNameOf baseUrl h (pre.length + 1))) = true) :
    ∃ ws1 ws2,
      (extract_linked_styles (some (pre ++ LinkElem.mk (some h) :: post))
        baseUrl dirName net writeOk).writes =
      ws1 ++ (osPathJoin dirName
        (if osBasename (urlparse (urljoin baseUrl h)).path = "" ∨
            ¬ pyEndsWith (osBasename (urlparse (urljoin baseUrl h)).path)
              ".css" then
          "style_" ++ toString (pre.length + 1) ++ ".css"
        else osBasename (urlparse (urljoin baseUrl h)).path),
        body) :: ws2 := by
  have hne : pre ++ LinkElem.mk (some h) :: post ≠ [] := by
    cases pre <;> simp
  have hidx : 1 + pre.length = pre.length + 1 := Nat.add_comm 1 pre.length
  refine ⟨filterMapFrom (linkWrite baseUrl dirName net writeOk) 1 pre,
    filterMapFrom (linkWrite baseUrl dirName net writeOk)
      (1 + pre.length + 1) post, ?_⟩
  by_cases hw : writeOk (osPathJoin dirName "index.html") = true
  · rw [extract_linked_styles_eq _ _ _ _ _ hne hw]
    dsimp only
    rw [filterMapFrom_append]
    congr 1
    rw [hidx]
    simp only [filterMapFrom, linkWrite, hnet, hws, if_neg hh]
    simp [cssNameOf]
  · rw [extract_linked_styles_eq_badwrite _ _ _ _ _ hne
      (by simpa using hw)]
    dsimp only
    rw [filterMapFrom_append]
    congr 1
    rw [hidx]
    simp only [filterMapFrom, linkWrite, hnet, hws, if_neg hh]
    simp [cssNameOf]

/-- Network oracle for the C4 witness: the resolved URL ends in a slash,
so its basename is empty. -/
def slashNet : String → Option String := fun u =>
  if u = "https://x.com/theme/" then some "body-t" else none

/-- Witness for C4: the first link has no `href` and the second resolves
to a URL ending in `/`, so the saved file is `style_2.css` — the index
counts the skipped link. -/
theorem css_filename_rule_witness :
    ∃ ws1 ws2,
      (extract_linked_styles
        (some ([LinkElem.mk none] ++ LinkElem.mk (some "theme/") :: []))
        "https://x.com/" "x.com" slashNet allWritesOk).writes =
      ws1 ++ (osPathJoin "x.com"
        (if osBasename (urlparse (urljoin "https://x.com/" "theme/")).path
              = "" ∨
            ¬ pyEndsWith
              (osBasename
                (urlparse (urljoin "https://x.com/" "theme/")).path)
              ".css" then
          "style_" ++ toString ([LinkElem.mk none].length + 1) ++ ".css"
        else osBasename (urlparse (urljoin "https://x.com/" "theme/")).path),
        "body-t") :: ws2 :=
  css_filename_rule [LinkElem.mk none] [] "theme/" "body-t"
    "https://x.com/" "x.com" slashNet allWritesOk (by decide) (by decide)
    (by decide)

/-- C10: a stylesheet link whose `href` attribute is present but empty is
skipped exactly as if the attribute were absent: the run's success flag,
requests, writes and download records coincide with those of the same
document with the attribute removed, and the element's reference is left
unrewritten in the final document. -/
theorem empty_href_skipped (pre post : List LinkElem)
    (baseUrl dirName : String) (net : String → Option String)
    (writeOk : String → Bool) :
    (extract_linked_styles (some (pre ++ LinkElem.mk (some "") :: post))
        baseUrl dirName net writeOk).ok =
      (extract_linked_styles (some (pre ++ LinkElem.mk none :: post))
        baseUrl dirName net writeOk).ok ∧
    (extract_linked_styles (some (pre ++ LinkElem.mk (some "") :: post))
        baseUrl dirName net writeOk).requests =
      (extract_linked_styles (some (pre ++ LinkElem.mk none :: post))
        baseUrl dirName net writeOk).requests ∧
    (extract_linked_styles (some (pre ++ LinkElem.mk (some "") :: post))
        baseUrl dirName net writeOk).writes =
      (extract_linked_styles (some (pre ++ LinkElem.mk none :: post))
        baseUrl dirName net writeOk).writes ∧
    (extract_linked_styles (some (pre ++ LinkElem.mk (some "") :: post))
        baseUrl dirName net writeOk).downloaded =
      (extract_linked_styles (some (pre ++ LinkElem.mk none :: post))
        baseUrl dirName net writeOk).downloaded ∧
    (extract_linked_styles (some (pre ++ LinkElem.mk (some "") :: post))
        baseUrl dirName net writeOk).finalLinks =
      (if writeOk (osPathJoin dirName "index.html") then
        some (mapFrom (linkAfter baseUrl dirName net writeOk) 1 pre ++
          LinkElem.mk (some "") ::
            mapFrom (linkAfter baseUrl dirName net writeOk)
              (pre.length + 2) post)
      else none) := by
  have hne1 : pre ++ LinkElem.mk (some "") :: post ≠ [] := by
    cases pre <;> simp
  have hne2 : pre ++ LinkElem.mk none :: post ≠ [] := by
    cases pre <;> simp
  have hidx : 1 + pre.length = pre.length + 1 := Nat.add_comm 1 pre.length
  by_cases hw : writeOk (osPathJoin dirName "index.html") = true
  · rw [extract_linked_styles_eq _ _ _ _ _ hne1 hw,
      extract_linked_styles_eq _ _ _ _ _ hne2 hw, if_pos hw]
    dsimp only
    rw [filterMapFrom_append, filterMapFrom_append, filterMapFrom_append,
      filterMapFrom_append, filterMapFrom_append, filterMapFrom_append,
      mapFrom_append]
    refine ⟨rfl, ?_, ?_, ?_, ?_⟩ <;>
      simp [filterMapFrom, mapFrom, linkRequest, linkWrite, linkDownload,
        linkAfter, hidx]
  · have hw' : writeOk (osPathJoin dirName "index.html") = false := by
      simpa using hw
    rw [extract_linked_styles_eq_badwrite _ _ _ _ _ hne1 hw',
      extract_linked_styles_eq_badwrite _ _ _ _ _ hne2 hw', if_neg hw]
    dsimp only
    rw [filterMapFrom_append, filterMapFrom_append, filterMapFrom_append,
      filterMapFrom_append, filterMapFrom_append, filterMapFrom_append]
    refine ⟨rfl, ?_, ?_, ?_, rfl⟩ <;>
      simp [filterMapFrom, linkRequest, linkWrite, linkDownload, hidx]

end ExtractHTML
